import Mathlib

/-!
Verification of the parallax scroll controller of the slablab.ai frontend.

The controller appears three times in the repository:
for the main entry point (src/unnamed/part_000, lines 26-90) and the contact
page (src/contact.js, lines 43-107) with identical text, and once as an ES
module (src/js/modules/utils.js, second document, lines 135-206) whose
`destroy` differs: it passes a freshly bound function to removeEventListener.

Shallow embedding choices:
- Scroll positions, widths and transform offsets are rationals; the JS
  multipliers -0.2, -0.5, -0.8 are -(1/5), -(1/2), -(4/5).
- The DOM is reduced to what the controller touches: presence of the three
  layer elements (resolved once at construction) and the `transform` style
  written to each, recorded as the y-offset of the translate3d value.
- Function identity under `.bind` matters for removeEventListener, so each
  `.bind` call allocates a fresh numeric id from a counter; the window scroll
  listener slot stores the id of the registered function, if any.
- requestAnimationFrame is a queue counter; a frame boundary drains the queue
  and runs each queued updateParallax callback.
- Two ghost (history) fields, `execCount` and `lastWritePos`, instrument the
  model for counting update executions and remembering the position of the
  most recent layer write; no modelled code branches on them.
-/

/-- Presence of the three parallax layer elements on the page, as resolved by
the three document.querySelector calls in the constructor. -/
structure PageLayers where
  layerBack : Bool
  layerMid : Bool
  layerFront : Bool
deriving DecidableEq

/-- The y-offsets currently written to the layers' style.transform
(translate3d values); `none` means never written. -/
structure Transforms where
  back : Option ℚ
  mid : Option ℚ
  front : Option ℚ
deriving DecidableEq

/-- The controller instance fields: `elements`, `ticking`, `lastScrollY`,
plus the identity of the bound function stored back into `this.handleScroll`
by `init` in the part_000/contact.js version (`none` before rebinding and in
the utils.js version, which never rebinds). -/
structure ParallaxController where
  elements : PageLayers
  ticking : Bool
  lastScrollY : ℚ
  handleScrollBound : Option Nat
deriving DecidableEq

/-- The world the controller interacts with: the controller itself, the layer
transforms, the window scroll-listener slot (id of the registered function),
the requestAnimationFrame queue, the bind-id counter, and two ghost fields. -/
structure World where
  ctrl : ParallaxController
  transforms : Transforms
  scrollListener : Option Nat
  rafQueue : Nat
  nextBindId : Nat
  /-- ghost: number of updateParallax executions so far -/
  execCount : Nat
  /-- ghost: scroll position at which a layer write most recently occurred -/
  lastWritePos : Option ℚ
deriving DecidableEq

/-- `Math.abs` on the embedded rationals (kernel-reducible, unlike the
lattice-derived `abs` of ℚ; `ratAbs_eq_abs` below shows they agree). -/
def ratAbs (x : ℚ) : ℚ := if x < 0 then -x else x

/-- Multiplier of the back layer: the literal -0.2 in the source. -/
def backMult : ℚ := -(1/5)

/-- Multiplier of the mid layer: the literal -0.5 in the source. -/
def midMult : ℚ := -(1/2)

/-- Multiplier of the front layer: the literal -0.8 in the source. -/
def frontMult : ℚ := -(4/5)

/-- `hasParallaxElements`: layerBack || layerMid || layerFront. -/
def hasParallaxElements (e : PageLayers) : Bool :=
  e.layerBack || e.layerMid || e.layerFront

/-- The three guarded writes of `updateParallax`: each present layer gets
`translate3d(0, scrolled * m px, 0)`; an absent layer is left untouched. -/
def applyTransforms (e : PageLayers) (scrolled : ℚ) (t : Transforms) : Transforms :=
  { back := if e.layerBack then some (scrolled * backMult) else t.back
    mid := if e.layerMid then some (scrolled * midMult) else t.mid
    front := if e.layerFront then some (scrolled * frontMult) else t.front }

/-- `updateParallax` (identical in all three copies): read
`window.pageYOffset` (the `scrolled` argument), skip everything but clearing
`ticking` when `Math.abs(scrolled - this.lastScrollY) < 1`, otherwise perform
the guarded writes, record `lastScrollY = scrolled` and clear `ticking`.
The ghost `execCount` counts executions; the ghost `lastWritePos` records the
position whenever at least one layer write happens. -/
def updateParallax (scrolled : ℚ) (w : World) : World :=
  if ratAbs (scrolled - w.ctrl.lastScrollY) < 1 then
    { w with ctrl := { w.ctrl with ticking := false }
             execCount := w.execCount + 1 }
  else
    { w with transforms := applyTransforms w.ctrl.elements scrolled w.transforms
             ctrl := { w.ctrl with lastScrollY := scrolled, ticking := false }
             execCount := w.execCount + 1
             lastWritePos := if hasParallaxElements w.ctrl.elements then some scrolled
                             else w.lastWritePos }

/-- `handleScroll` (part_000/contact.js): if not ticking, queue one
requestAnimationFrame(this.updateParallax) callback and set ticking. -/
def handleScroll (w : World) : World :=
  if !w.ctrl.ticking then
    { w with rafQueue := w.rafQueue + 1
             ctrl := { w.ctrl with ticking := true } }
  else w

/-- Delivery of a window scroll event: runs handleScroll exactly when the
listener is registered. -/
def scrollEvent (w : World) : World :=
  if w.scrollListener.isSome then handleScroll w else w

/-- `new ParallaxController()` followed by `init` (part_000/contact.js):
the constructor resolves the three layers, sets `ticking = false` and
`lastScrollY = 0`, and calls `init`; `init` returns at once when no layer is
present, otherwise it rebinds handleScroll (bind id 0) and updateParallax
(bind id 1), registers the bound handleScroll as the scroll listener, and
makes the initial `updateParallax()` call at the current scroll position. -/
def construct (layers : PageLayers) (pageYOffset : ℚ) : World :=
  if hasParallaxElements layers then
    updateParallax pageYOffset
      { ctrl := { elements := layers, ticking := false, lastScrollY := 0
                  handleScrollBound := some 0 }
        transforms := { back := none, mid := none, front := none }
        scrollListener := some 0
        rafQueue := 0
        nextBindId := 2
        execCount := 0
        lastWritePos := none }
  else
    { ctrl := { elements := layers, ticking := false, lastScrollY := 0
                handleScrollBound := none }
      transforms := { back := none, mid := none, front := none }
      scrollListener := none
      rafQueue := 0
      nextBindId := 0
      execCount := 0
      lastWritePos := none }

/-- `destroy` (part_000/contact.js):
`window.removeEventListener('scroll', this.handleScroll)`, where
`this.handleScroll` is the function `init` stored back; removal happens only
when the registered listener is that same function. -/
def destroy (w : World) : World :=
  { w with scrollListener :=
      if w.scrollListener.isSome ∧ w.scrollListener = w.ctrl.handleScrollBound
      then none else w.scrollListener }

/-- Runs `n` queued updateParallax callbacks at scroll position `pos`. -/
def runQueued (pos : ℚ) : Nat → World → World
  | 0, w => w
  | n + 1, w => runQueued pos n (updateParallax pos w)

/-- A rendering-frame boundary: the browser drains the rAF queue and calls
each queued callback, each reading the scroll position at frame time. -/
def runFrame (pos : ℚ) (w : World) : World :=
  runQueued pos w.rafQueue { w with rafQueue := 0 }

/-- `n` consecutive scroll events. -/
def scrollIter : Nat → World → World
  | 0, w => w
  | n + 1, w => scrollIter n (scrollEvent w)

/-- `new ParallaxController()` of the utils.js module version: same fields
(its unused options.throttleDelay default 16 is dropped), but `init` passes
`this.handleScroll.bind(this)` (fresh id 0) straight to addEventListener and
stores nothing back into `this.handleScroll`. -/
def constructU (layers : PageLayers) (pageYOffset : ℚ) : World :=
  if hasParallaxElements layers then
    updateParallax pageYOffset
      { ctrl := { elements := layers, ticking := false, lastScrollY := 0
                  handleScrollBound := none }
        transforms := { back := none, mid := none, front := none }
        scrollListener := some 0
        rafQueue := 0
        nextBindId := 1
        execCount := 0
        lastWritePos := none }
  else
    { ctrl := { elements := layers, ticking := false, lastScrollY := 0
                handleScrollBound := none }
      transforms := { back := none, mid := none, front := none }
      scrollListener := none
      rafQueue := 0
      nextBindId := 0
      execCount := 0
      lastWritePos := none }

/-- `handleScroll` of the utils.js version: binds updateParallax afresh
(consuming a bind id) before queueing it; queue semantics are the same. -/
def handleScrollU (w : World) : World :=
  if !w.ctrl.ticking then
    { w with rafQueue := w.rafQueue + 1
             nextBindId := w.nextBindId + 1
             ctrl := { w.ctrl with ticking := true } }
  else w

/-- Scroll event delivery for the utils.js version. -/
def scrollEventU (w : World) : World :=
  if w.scrollListener.isSome then handleScrollU w else w

/-- `destroy` of the utils.js version:
`window.removeEventListener('scroll', this.handleScroll.bind(this))` — the
`.bind` call allocates a fresh function, and removal happens only if the
registered listener is that fresh function. -/
def destroyU (w : World) : World :=
  { w with nextBindId := w.nextBindId + 1
           scrollListener :=
             if w.scrollListener = some w.nextBindId then none
             else w.scrollListener }

/-- The environment read by `initApp`: reduced-motion media query, window
inner width, the page layers and current scroll position. -/
structure Env where
  reducedMotion : Bool
  innerWidth : ℚ
  layers : PageLayers
  pageYOffset : ℚ
deriving DecidableEq

/-- `Utils.prefersReducedMotion`. -/
def prefersReducedMotion (e : Env) : Bool := e.reducedMotion

/-- `Utils.isMobile`: `window.innerWidth <= 768`. -/
def isMobile (e : Env) : Bool := decide (e.innerWidth ≤ 768)

/-- The parallax branch of `initApp` (part_000 lines 258-261, contact.js
lines 408-411): `if (!Utils.prefersReducedMotion() && !Utils.isMobile())
parallaxController = new ParallaxController()`; yields the constructed
parallax world, or `none` when the guard rejects. -/
def initAppParallax (e : Env) : Option World :=
  if !prefersReducedMotion e && !isMobile e then
    some (construct e.layers e.pageYOffset)
  else none

/-- States reachable from a constructed controller world by scroll events,
frame boundaries (at arbitrary scroll positions) and teardown. -/
inductive Reachable (w0 : World) : World → Prop
  | refl : Reachable w0 w0
  | scrolled {w} : Reachable w0 w → Reachable w0 (scrollEvent w)
  | framed {w} (pos : ℚ) : Reachable w0 w → Reachable w0 (runFrame pos w)
  | teardown {w} : Reachable w0 w → Reachable w0 (destroy w)

/-- The master invariant of the part_000/contact.js controller lifetime:
the layer set is the one resolved at construction; the rAF queue holds
exactly one callback when ticking and none otherwise; a registered listener
and a set ticking flag each imply some layer was present; and `lastScrollY`
equals the position of the most recent layer write (0 before any write). -/
def CtrlInv (L : PageLayers) (w : World) : Prop :=
  w.ctrl.elements = L ∧
  w.rafQueue = (if w.ctrl.ticking then 1 else 0) ∧
  (w.scrollListener.isSome = true → hasParallaxElements L = true) ∧
  (w.ctrl.ticking = true → hasParallaxElements L = true) ∧
  w.ctrl.lastScrollY = w.lastWritePos.getD 0

/-! ### Basic lemmas about the embedded operations -/

theorem ratAbs_eq_abs (x : ℚ) : ratAbs x = |x| := by
  by_cases h : x < 0
  · rw [ratAbs, if_pos h, abs_of_neg h]
  · rw [ratAbs, if_neg h, abs_of_nonneg (not_lt.mp h)]

lemma updateParallax_transforms (pos : ℚ) (w : World) :
    (updateParallax pos w).transforms =
      if ratAbs (pos - w.ctrl.lastScrollY) < 1 then w.transforms
      else applyTransforms w.ctrl.elements pos w.transforms := by
  unfold updateParallax
  by_cases h : ratAbs (pos - w.ctrl.lastScrollY) < 1 <;> simp [h]

lemma updateParallax_elements (pos : ℚ) (w : World) :
    (updateParallax pos w).ctrl.elements = w.ctrl.elements := by
  unfold updateParallax
  by_cases h : ratAbs (pos - w.ctrl.lastScrollY) < 1 <;> simp [h]

lemma updateParallax_ticking (pos : ℚ) (w : World) :
    (updateParallax pos w).ctrl.ticking = false := by
  unfold updateParallax
  by_cases h : ratAbs (pos - w.ctrl.lastScrollY) < 1 <;> simp [h]

lemma updateParallax_lastScrollY (pos : ℚ) (w : World) :
    (updateParallax pos w).ctrl.lastScrollY =
      if ratAbs (pos - w.ctrl.lastScrollY) < 1 then w.ctrl.lastScrollY else pos := by
  unfold updateParallax
  by_cases h : ratAbs (pos - w.ctrl.lastScrollY) < 1 <;> simp [h]

lemma updateParallax_handleScrollBound (pos : ℚ) (w : World) :
    (updateParallax pos w).ctrl.handleScrollBound = w.ctrl.handleScrollBound := by
  unfold updateParallax
  by_cases h : ratAbs (pos - w.ctrl.lastScrollY) < 1 <;> simp [h]

lemma updateParallax_rafQueue (pos : ℚ) (w : World) :
    (updateParallax pos w).rafQueue = w.rafQueue := by
  unfold updateParallax
  by_cases h : ratAbs (pos - w.ctrl.lastScrollY) < 1 <;> simp [h]

lemma updateParallax_scrollListener (pos : ℚ) (w : World) :
    (updateParallax pos w).scrollListener = w.scrollListener := by
  unfold updateParallax
  by_cases h : ratAbs (pos - w.ctrl.lastScrollY) < 1 <;> simp [h]

lemma updateParallax_execCount (pos : ℚ) (w : World) :
    (updateParallax pos w).execCount = w.execCount + 1 := by
  unfold updateParallax
  by_cases h : ratAbs (pos - w.ctrl.lastScrollY) < 1 <;> simp [h]

lemma updateParallax_lastWritePos (pos : ℚ) (w : World) :
    (updateParallax pos w).lastWritePos =
      if ratAbs (pos - w.ctrl.lastScrollY) < 1 then w.lastWritePos
      else if hasParallaxElements w.ctrl.elements then some pos else w.lastWritePos := by
  unfold updateParallax
  by_cases h : ratAbs (pos - w.ctrl.lastScrollY) < 1 <;> simp [h]

lemma scrollEvent_of_ticking {w : World} (h : w.ctrl.ticking = true) :
    scrollEvent w = w := by
  unfold scrollEvent handleScroll
  by_cases hl : w.scrollListener.isSome <;> simp [hl, h]

lemma scrollEvent_of_clear {w : World} (hl : w.scrollListener.isSome = true)
    (ht : w.ctrl.ticking = false) :
    scrollEvent w =
      { w with rafQueue := w.rafQueue + 1, ctrl := { w.ctrl with ticking := true } } := by
  unfold scrollEvent handleScroll
  simp [hl, ht]

lemma scrollEvent_of_none {w : World} (hl : w.scrollListener.isSome = false) :
    scrollEvent w = w := by
  unfold scrollEvent
  simp [hl]

lemma scrollEvent_execCount (w : World) : (scrollEvent w).execCount = w.execCount := by
  unfold scrollEvent handleScroll
  by_cases hl : w.scrollListener.isSome <;> by_cases ht : w.ctrl.ticking <;> simp [hl, ht]

lemma scrollIter_execCount (n : Nat) (w : World) :
    (scrollIter n w).execCount = w.execCount := by
  induction n generalizing w with
  | zero => rfl
  | succ n ih => rw [scrollIter, ih, scrollEvent_execCount]

lemma scrollIter_of_ticking {w : World} (h : w.ctrl.ticking = true) (n : Nat) :
    scrollIter n w = w := by
  induction n with
  | zero => rfl
  | succ n ih => rw [scrollIter, scrollEvent_of_ticking h, ih]

lemma destroy_ctrl (w : World) : (destroy w).ctrl = w.ctrl := rfl

lemma destroy_transforms (w : World) : (destroy w).transforms = w.transforms := rfl

lemma destroy_rafQueue (w : World) : (destroy w).rafQueue = w.rafQueue := rfl

lemma destroy_execCount (w : World) : (destroy w).execCount = w.execCount := rfl

lemma destroy_lastWritePos (w : World) : (destroy w).lastWritePos = w.lastWritePos := rfl

lemma runFrame_of_queue_zero {w : World} (h : w.rafQueue = 0) :
    runFrame pos w = { w with rafQueue := 0 } := by
  unfold runFrame
  rw [h]
  rfl

lemma runFrame_of_queue_one {w : World} {pos : ℚ} (h : w.rafQueue = 1) :
    runFrame pos w = updateParallax pos { w with rafQueue := 0 } := by
  unfold runFrame
  rw [h]
  rfl

lemma destroy_scrollListener (w : World) :
    (destroy w).scrollListener =
      if w.scrollListener.isSome ∧ w.scrollListener = w.ctrl.handleScrollBound
      then none else w.scrollListener := rfl

/-! ### The lifetime invariant -/

lemma ctrlInv_updateParallax {L : PageLayers} {w : World} (pos : ℚ)
    (hE : w.ctrl.elements = L) (hQ : w.rafQueue = 0)
    (hS : w.scrollListener.isSome = true → hasParallaxElements L = true)
    (hL : hasParallaxElements L = true)
    (hY : w.ctrl.lastScrollY = w.lastWritePos.getD 0) :
    CtrlInv L (updateParallax pos w) := by
  refine ⟨by rw [updateParallax_elements]; exact hE,
          by rw [updateParallax_rafQueue, updateParallax_ticking, hQ]; rfl,
          by rw [updateParallax_scrollListener]; exact hS,
          fun _ => hL, ?_⟩
  rw [updateParallax_lastScrollY, updateParallax_lastWritePos]
  by_cases hC : ratAbs (pos - w.ctrl.lastScrollY) < 1
  · rw [if_pos hC, if_pos hC]
    exact hY
  · rw [if_neg hC, if_neg hC, hE, if_pos hL]
    rfl

lemma ctrlInv_construct (L : PageLayers) (p : ℚ) : CtrlInv L (construct L p) := by
  by_cases hL : hasParallaxElements L = true
  · unfold construct
    rw [if_pos hL]
    exact ctrlInv_updateParallax p rfl rfl (fun _ => hL) hL rfl
  · unfold construct
    rw [if_neg hL]
    exact ⟨rfl, rfl, fun hc => by simp at hc, fun hc => by simp at hc, rfl⟩

lemma ctrlInv_scrollEvent {L : PageLayers} {w : World} (h : CtrlInv L w) :
    CtrlInv L (scrollEvent w) := by
  obtain ⟨hE, hQ, hS, hT, hY⟩ := h
  by_cases hl : w.scrollListener.isSome = true
  · by_cases ht : w.ctrl.ticking = true
    · rw [scrollEvent_of_ticking ht]
      exact ⟨hE, hQ, hS, hT, hY⟩
    · have ht' : w.ctrl.ticking = false := by simpa using ht
      rw [scrollEvent_of_clear hl ht']
      refine ⟨hE, ?_, fun _ => hS hl, fun _ => hS hl, hY⟩
      simp [hQ, ht']
  · have hl' : w.scrollListener.isSome = false := by simpa using hl
    rw [scrollEvent_of_none hl']
    exact ⟨hE, hQ, hS, hT, hY⟩

lemma ctrlInv_runFrame {L : PageLayers} {w : World} (pos : ℚ) (h : CtrlInv L w) :
    CtrlInv L (runFrame pos w) := by
  obtain ⟨hE, hQ, hS, hT, hY⟩ := h
  by_cases ht : w.ctrl.ticking = true
  · have hq1 : w.rafQueue = 1 := by rw [hQ, if_pos ht]
    rw [runFrame_of_queue_one hq1]
    exact ctrlInv_updateParallax pos hE rfl hS (hT ht) hY
  · have ht' : w.ctrl.ticking = false := by simpa using ht
    have hq0 : w.rafQueue = 0 := by simp [hQ, ht']
    rw [runFrame_of_queue_zero hq0]
    exact ⟨hE, by simp [ht'], hS, hT, hY⟩

lemma ctrlInv_destroy {L : PageLayers} {w : World} (h : CtrlInv L w) :
    CtrlInv L (destroy w) := by
  obtain ⟨hE, hQ, hS, hT, hY⟩ := h
  refine ⟨hE, hQ, ?_, hT, hY⟩
  intro hsome
  rw [destroy_scrollListener] at hsome
  by_cases hc : w.scrollListener.isSome ∧ w.scrollListener = w.ctrl.handleScrollBound
  · rw [if_pos hc] at hsome
    simp at hsome
  · rw [if_neg hc] at hsome
    exact hS hsome

lemma reachable_ctrlInv {L : PageLayers} {p : ℚ} {w : World}
    (h : Reachable (construct L p) w) : CtrlInv L w := by
  induction h with
  | refl => exact ctrlInv_construct L p
  | scrolled _ ih => exact ctrlInv_scrollEvent ih
  | framed pos _ ih => exact ctrlInv_runFrame pos ih
  | teardown _ ih => exact ctrlInv_destroy ih

lemma updateParallax_ctrl (pos : ℚ) (w : World) :
    (updateParallax pos w).ctrl =
      if ratAbs (pos - w.ctrl.lastScrollY) < 1 then { w.ctrl with ticking := false }
      else { w.ctrl with lastScrollY := pos, ticking := false } := by
  unfold updateParallax
  by_cases h : ratAbs (pos - w.ctrl.lastScrollY) < 1 <;> simp [h]

/-! ### C2: threshold behaviour of the update routine -/

/-- C2: for every current position and lastApplied value, an absolute
difference below 1 makes updateParallax clear the pending flag and leave
every layer transform untouched, while a difference of at least 1 performs
the guarded writes, giving each present layer the proportional transform. -/
theorem updateParallax_threshold (w : World) (pos : ℚ) :
    (ratAbs (pos - w.ctrl.lastScrollY) < 1 →
      (updateParallax pos w).transforms = w.transforms ∧
      (updateParallax pos w).ctrl.ticking = false) ∧
    (1 ≤ ratAbs (pos - w.ctrl.lastScrollY) →
      (updateParallax pos w).transforms = applyTransforms w.ctrl.elements pos w.transforms ∧
      (w.ctrl.elements.layerBack = true →
        (updateParallax pos w).transforms.back = some (pos * backMult)) ∧
      (w.ctrl.elements.layerMid = true →
        (updateParallax pos w).transforms.mid = some (pos * midMult)) ∧
      (w.ctrl.elements.layerFront = true →
        (updateParallax pos w).transforms.front = some (pos * frontMult))) := by
  constructor
  · intro h
    rw [updateParallax_transforms, if_pos h, updateParallax_ticking]
    exact ⟨rfl, rfl⟩
  · intro h
    have hn : ¬ ratAbs (pos - w.ctrl.lastScrollY) < 1 := not_lt.mpr h
    rw [updateParallax_transforms, if_neg hn]
    refine ⟨rfl, ?_, ?_, ?_⟩ <;> intro hb <;> simp [applyTransforms, hb]

/-- A controller world with only the mid layer present and lastApplied 100,
used to instantiate the threshold claim at its quoted example. -/
def wMid100 : World :=
  { ctrl := { elements := ⟨false, true, false⟩, ticking := false, lastScrollY := 100
              handleScrollBound := some 0 }
    transforms := { back := none, mid := none, front := none }
    scrollListener := some 0
    rafQueue := 0
    nextBindId := 2
    execCount := 1
    lastWritePos := some 100 }

/-- C2 witness: from lastApplied 100, position 100.5 writes nothing and
position 101 writes the mid transform. -/
theorem updateParallax_threshold_witness :
    (updateParallax (201/2) wMid100).transforms = wMid100.transforms ∧
    (updateParallax 101 wMid100).transforms.mid = some (101 * midMult) := by
  refine ⟨((updateParallax_threshold wMid100 (201/2)).1 ?_).1,
          ((updateParallax_threshold wMid100 101).2 ?_).2.2.1 rfl⟩
  · norm_num [wMid100, ratAbs]
  · norm_num [wMid100, ratAbs]

/-! ### C3: proportionality of the written transforms -/

/-- C3: whenever updateParallax performs a write (difference at least 1), the
transform written to each present layer is the scroll position times that
layer's fixed multiplier: back -0.2, mid -0.5, front -0.8; the multipliers
are the constant definitions backMult, midMult, frontMult, never mutated. -/
theorem updateParallax_proportional (w : World) (pos : ℚ)
    (h : 1 ≤ ratAbs (pos - w.ctrl.lastScrollY)) :
    backMult = -(1/5) ∧ midMult = -(1/2) ∧ frontMult = -(4/5) ∧
    (updateParallax pos w).transforms.back =
      (if w.ctrl.elements.layerBack then some (pos * backMult) else w.transforms.back) ∧
    (updateParallax pos w).transforms.mid =
      (if w.ctrl.elements.layerMid then some (pos * midMult) else w.transforms.mid) ∧
    (updateParallax pos w).transforms.front =
      (if w.ctrl.elements.layerFront then some (pos * frontMult) else w.transforms.front) := by
  have hn : ¬ ratAbs (pos - w.ctrl.lastScrollY) < 1 := not_lt.mpr h
  rw [updateParallax_transforms, if_neg hn]
  exact ⟨rfl, rfl, rfl, rfl, rfl, rfl⟩

/-- A controller world with all three layers present and lastApplied 0, used
to instantiate the proportionality claim at S = 50. -/
def wAll0 : World :=
  { ctrl := { elements := ⟨true, true, true⟩, ticking := false, lastScrollY := 0
              handleScrollBound := some 0 }
    transforms := { back := none, mid := none, front := none }
    scrollListener := some 0
    rafQueue := 0
    nextBindId := 2
    execCount := 1
    lastWritePos := none }

/-- C3 witness: at S = 50 the three layers receive -10, -25 and -40. -/
theorem updateParallax_proportional_witness :
    (updateParallax 50 wAll0).transforms.back = some (-10) ∧
    (updateParallax 50 wAll0).transforms.mid = some (-25) ∧
    (updateParallax 50 wAll0).transforms.front = some (-40) := by
  have h := updateParallax_proportional wAll0 50 (by norm_num [wAll0, ratAbs])
  refine ⟨?_, ?_, ?_⟩
  · rw [h.2.2.2.1]
    norm_num [wAll0, backMult]
  · rw [h.2.2.2.2.1]
    norm_num [wAll0, midMult]
  · rw [h.2.2.2.2.2]
    norm_num [wAll0, frontMult]

/-! ### C7: guarded layer access -/

/-- C7: updateParallax is a total function for every combination of present
and absent layers (the embedding of a routine that never raises); a layer
that is absent is left untouched by every execution, and a layer whose
transform changes must have been present. -/
theorem updateParallax_guarded (w : World) (pos : ℚ) :
    (w.ctrl.elements.layerBack = false →
      (updateParallax pos w).transforms.back = w.transforms.back) ∧
    (w.ctrl.elements.layerMid = false →
      (updateParallax pos w).transforms.mid = w.transforms.mid) ∧
    (w.ctrl.elements.layerFront = false →
      (updateParallax pos w).transforms.front = w.transforms.front) ∧
    ((updateParallax pos w).transforms.back ≠ w.transforms.back →
      w.ctrl.elements.layerBack = true) ∧
    ((updateParallax pos w).transforms.mid ≠ w.transforms.mid →
      w.ctrl.elements.layerMid = true) ∧
    ((updateParallax pos w).transforms.front ≠ w.transforms.front →
      w.ctrl.elements.layerFront = true) := by
  have hb : w.ctrl.elements.layerBack = false →
      (updateParallax pos w).transforms.back = w.transforms.back := by
    intro h
    rw [updateParallax_transforms]
    by_cases hC : ratAbs (pos - w.ctrl.lastScrollY) < 1 <;> simp [hC, applyTransforms, h]
  have hm : w.ctrl.elements.layerMid = false →
      (updateParallax pos w).transforms.mid = w.transforms.mid := by
    intro h
    rw [updateParallax_transforms]
    by_cases hC : ratAbs (pos - w.ctrl.lastScrollY) < 1 <;> simp [hC, applyTransforms, h]
  have hf : w.ctrl.elements.layerFront = false →
      (updateParallax pos w).transforms.front = w.transforms.front := by
    intro h
    rw [updateParallax_transforms]
    by_cases hC : ratAbs (pos - w.ctrl.lastScrollY) < 1 <;> simp [hC, applyTransforms, h]
  refine ⟨hb, hm, hf, ?_, ?_, ?_⟩
  · intro hne
    by_cases h : w.ctrl.elements.layerBack = true
    · exact h
    · exact absurd (hb (by simpa using h)) hne
  · intro hne
    by_cases h : w.ctrl.elements.layerMid = true
    · exact h
    · exact absurd (hm (by simpa using h)) hne
  · intro hne
    by_cases h : w.ctrl.elements.layerFront = true
    · exact h
    · exact absurd (hf (by simpa using h)) hne

/-- A controller world with only the mid layer present, used to instantiate
the partial-layer tolerance example. -/
def wMidOnly : World :=
  { ctrl := { elements := ⟨false, true, false⟩, ticking := false, lastScrollY := 0
              handleScrollBound := some 0 }
    transforms := { back := none, mid := none, front := none }
    scrollListener := some 0
    rafQueue := 0
    nextBindId := 2
    execCount := 1
    lastWritePos := none }

/-- C7 witness: with only the mid layer present, an update at position 10
leaves back and front untouched and writes only the mid transform. -/
theorem updateParallax_guarded_witness :
    (updateParallax 10 wMidOnly).transforms.back = wMidOnly.transforms.back ∧
    (updateParallax 10 wMidOnly).transforms.front = wMidOnly.transforms.front ∧
    (updateParallax 10 wMidOnly).transforms.mid = some (10 * midMult) := by
  refine ⟨(updateParallax_guarded wMidOnly 10).1 rfl,
          (updateParallax_guarded wMidOnly 10).2.2.1 rfl, ?_⟩
  norm_num [wMidOnly, updateParallax, ratAbs, applyTransforms, hasParallaxElements]

/-! ### C8: frame effect of destroy -/

/-- C8: destroy touches nothing but the scroll-listener slot: the controller
fields (lastScrollY, ticking, elements, bound handler), the written
transforms, the pending rAF queue and the execution count are unchanged, and
updateParallax invoked after destroy produces the same transforms and
controller fields as before destroy (all layer accesses remain guarded). -/
theorem destroy_frame_effect (w : World) (pos : ℚ) :
    (destroy w).ctrl = w.ctrl ∧
    (destroy w).transforms = w.transforms ∧
    (destroy w).rafQueue = w.rafQueue ∧
    (destroy w).execCount = w.execCount ∧
    (updateParallax pos (destroy w)).transforms = (updateParallax pos w).transforms ∧
    (updateParallax pos (destroy w)).ctrl = (updateParallax pos w).ctrl := by
  refine ⟨rfl, rfl, rfl, rfl, ?_, ?_⟩
  · rw [updateParallax_transforms, updateParallax_transforms, destroy_ctrl, destroy_transforms]
  · rw [updateParallax_ctrl, updateParallax_ctrl, destroy_ctrl]

/-! ### C4: inert construction without layers -/

/-- C4: constructing the controller on a page where none of the three layers
is present has no effect beyond initializing the controller fields: no
listener is registered, no bind happens, no transform is written, and the
update routine never runs. -/
theorem construct_inert (L : PageLayers) (p : ℚ)
    (h : hasParallaxElements L = false) :
    construct L p =
      { ctrl := { elements := L, ticking := false, lastScrollY := 0
                  handleScrollBound := none }
        transforms := { back := none, mid := none, front := none }
        scrollListener := none
        rafQueue := 0
        nextBindId := 0
        execCount := 0
        lastWritePos := none } := by
  unfold construct
  rw [h]
  rfl

/-- C4 witness: constructing on a layerless page at scroll position 7. -/
theorem construct_inert_witness :
    construct ⟨false, false, false⟩ 7 =
      { ctrl := { elements := ⟨false, false, false⟩, ticking := false, lastScrollY := 0
                  handleScrollBound := none }
        transforms := { back := none, mid := none, front := none }
        scrollListener := none
        rafQueue := 0
        nextBindId := 0
        execCount := 0
        lastWritePos := none } :=
  construct_inert ⟨false, false, false⟩ 7 rfl

/-! ### C5: construction with at least one layer -/

/-- C5 counterexample: with only the mid layer present and initial scroll
position 1/2, construction subscribes and makes the initial update call, but
the threshold check (distance from lastScrollY = 0 below 1) skips every
write, so the mid transform is not positioned proportionally — refuting the
claim that the initial update writes each present layer regardless of the
current scroll position. -/
theorem construct_initial_write_cex :
    hasParallaxElements ⟨false, true, false⟩ = true ∧
    (construct ⟨false, true, false⟩ (1/2)).scrollListener = some 0 ∧
    (construct ⟨false, true, false⟩ (1/2)).execCount = 1 ∧
    (construct ⟨false, true, false⟩ (1/2)).transforms.mid = none ∧
    (construct ⟨false, true, false⟩ (1/2)).transforms.mid ≠ some ((1/2) * midMult) := by
  have hmid : (construct ⟨false, true, false⟩ (1/2)).transforms.mid = none := by
    norm_num [construct, updateParallax, ratAbs, hasParallaxElements, applyTransforms]
  refine ⟨rfl, ?_, ?_, hmid, by rw [hmid]; simp⟩ <;>
    norm_num [construct, updateParallax, ratAbs, hasParallaxElements, applyTransforms]

/-- C5 amended: with at least one layer present, construction registers the
scroll listener and makes exactly one unconditional initial call to the
update routine; that call writes each present layer proportionally to the
current position when the position is at least 1 away from the initial
lastScrollY of 0, and writes nothing when it is closer than 1. -/
theorem construct_subscribes (L : PageLayers) (p : ℚ)
    (h : hasParallaxElements L = true) :
    (construct L p).scrollListener = some 0 ∧
    (construct L p).execCount = 1 ∧
    (ratAbs p < 1 →
      (construct L p).transforms = { back := none, mid := none, front := none }) ∧
    (1 ≤ ratAbs p →
      (construct L p).transforms.back = (if L.layerBack then some (p * backMult) else none) ∧
      (construct L p).transforms.mid = (if L.layerMid then some (p * midMult) else none) ∧
      (construct L p).transforms.front = (if L.layerFront then some (p * frontMult) else none)) := by
  unfold construct
  rw [if_pos h]
  refine ⟨by rw [updateParallax_scrollListener],
          by rw [updateParallax_execCount], ?_, ?_⟩
  · intro hp
    rw [updateParallax_transforms]
    have hp' : ratAbs (p - 0) < 1 := by rwa [sub_zero]
    rw [if_pos hp']
  · intro hp
    have hp' : ¬ ratAbs (p - 0) < 1 := by rw [sub_zero]; exact not_lt.mpr hp
    rw [updateParallax_transforms, if_neg hp']
    exact ⟨rfl, rfl, rfl⟩

/-- C5 witness: with all three layers present and initial position 50, the
listener is registered and the initial update writes the mid transform. -/
theorem construct_subscribes_witness :
    (construct ⟨true, true, true⟩ 50).scrollListener = some 0 ∧
    (construct ⟨true, true, true⟩ 50).transforms.mid = some (50 * midMult) := by
  have h := construct_subscribes ⟨true, true, true⟩ 50 rfl
  refine ⟨h.1, ?_⟩
  rw [(h.2.2.2 (by norm_num [ratAbs])).2.1]
  rfl

/-! ### C1: at most one outstanding update; coalescing -/

/-- C1: in every reachable state of the controller at most one rAF request
is outstanding; a scroll notification with the pending flag set schedules
nothing, one with the flag clear schedules exactly one callback and sets the
flag, every update execution clears the flag, and N+1 scroll notifications
followed by one frame boundary produce exactly one update execution. -/
theorem parallax_coalescing (L : PageLayers) (p : ℚ) (w : World)
    (hw : Reachable (construct L p) w) :
    w.rafQueue ≤ 1 ∧
    (w.ctrl.ticking = true → scrollEvent w = w) ∧
    (w.ctrl.ticking = false → w.scrollListener.isSome = true →
      (scrollEvent w).rafQueue = w.rafQueue + 1 ∧ (scrollEvent w).ctrl.ticking = true) ∧
    (∀ pos, (updateParallax pos w).ctrl.ticking = false) ∧
    (∀ n, (scrollIter n w).execCount = w.execCount) ∧
    (∀ n pos, w.ctrl.ticking = false → w.scrollListener.isSome = true →
      (runFrame pos (scrollIter (n + 1) w)).execCount = w.execCount + 1) := by
  obtain ⟨hE, hQ, hS, hT, hY⟩ := reachable_ctrlInv hw
  refine ⟨?_, fun ht => scrollEvent_of_ticking ht, ?_, fun pos => updateParallax_ticking pos w,
          fun n => scrollIter_execCount n w, ?_⟩
  · rw [hQ]
    by_cases ht : w.ctrl.ticking = true <;> simp [ht]
  · intro ht hl
    rw [scrollEvent_of_clear hl ht]
    exact ⟨rfl, rfl⟩
  · intro n pos ht hl
    have hq0 : w.rafQueue = 0 := by simp [hQ, ht]
    rw [scrollIter, scrollEvent_of_clear hl ht]
    have hw't : ({ w with rafQueue := w.rafQueue + 1
                          ctrl := { w.ctrl with ticking := true } } : World).ctrl.ticking
        = true := rfl
    rw [scrollIter_of_ticking hw't n]
    have hq1 : ({ w with rafQueue := w.rafQueue + 1
                         ctrl := { w.ctrl with ticking := true } } : World).rafQueue = 1 := by
      show w.rafQueue + 1 = 1
      rw [hq0]
    rw [runFrame_of_queue_one hq1, updateParallax_execCount]

/-- C1 witness: from the freshly constructed three-layer controller, one
scroll notification schedules one callback, and three notifications within
one frame produce exactly one update execution at the frame boundary. -/
theorem parallax_coalescing_witness :
    (scrollEvent (construct ⟨true, true, true⟩ 0)).rafQueue
      = (construct ⟨true, true, true⟩ 0).rafQueue + 1 ∧
    (runFrame 10 (scrollIter 3 (construct ⟨true, true, true⟩ 0))).execCount
      = (construct ⟨true, true, true⟩ 0).execCount + 1 := by
  have h := parallax_coalescing ⟨true, true, true⟩ 0 (construct ⟨true, true, true⟩ 0)
    Reachable.refl
  have ht : (construct ⟨true, true, true⟩ 0).ctrl.ticking = false := by
    norm_num [construct, updateParallax, ratAbs, hasParallaxElements, applyTransforms]
  have hl : (construct ⟨true, true, true⟩ 0).scrollListener.isSome = true := by
    norm_num [construct, updateParallax, ratAbs, hasParallaxElements, applyTransforms]
  exact ⟨(h.2.2.1 ht hl).1, h.2.2.2.2.2 2 10 ht hl⟩

/-! ### C10: lastScrollY tracks the last written position -/

/-- C10: in every reachable state, lastScrollY equals the scroll position of
the most recent layer write (0 if none has occurred); a threshold-skipped
update changes neither lastScrollY nor the write history nor any transform,
so sub-unit steps are measured against the last written baseline, and an
update at least 1 away from that baseline records the new position. -/
theorem lastScrollY_tracks_writes (L : PageLayers) (p : ℚ) (w : World)
    (hw : Reachable (construct L p) w) :
    w.ctrl.lastScrollY = w.lastWritePos.getD 0 ∧
    (∀ pos, ratAbs (pos - w.ctrl.lastScrollY) < 1 →
      (updateParallax pos w).ctrl.lastScrollY = w.ctrl.lastScrollY ∧
      (updateParallax pos w).lastWritePos = w.lastWritePos ∧
      (updateParallax pos w).transforms = w.transforms) ∧
    (∀ pos, 1 ≤ ratAbs (pos - w.ctrl.lastScrollY) →
      hasParallaxElements w.ctrl.elements = true →
      (updateParallax pos w).ctrl.lastScrollY = pos ∧
      (updateParallax pos w).lastWritePos = some pos) := by
  obtain ⟨hE, hQ, hS, hT, hY⟩ := reachable_ctrlInv hw
  refine ⟨hY, ?_, ?_⟩
  · intro pos hp
    rw [updateParallax_lastScrollY, if_pos hp, updateParallax_lastWritePos, if_pos hp,
        updateParallax_transforms, if_pos hp]
    exact ⟨rfl, rfl, rfl⟩
  · intro pos hp hL
    have hn : ¬ ratAbs (pos - w.ctrl.lastScrollY) < 1 := not_lt.mpr hp
    rw [updateParallax_lastScrollY, if_neg hn, updateParallax_lastWritePos, if_neg hn]
    exact ⟨rfl, by simp [hL]⟩

/-- C10 witness: the controller constructed at position 5 has written at 5
and lastScrollY 5; a further update at 7 records the write position 7. -/
theorem lastScrollY_tracks_writes_witness :
    (construct ⟨true, true, true⟩ 5).ctrl.lastScrollY
      = ((construct ⟨true, true, true⟩ 5).lastWritePos).getD 0 ∧
    (updateParallax 7 (construct ⟨true, true, true⟩ 5)).lastWritePos = some 7 := by
  have h := lastScrollY_tracks_writes ⟨true, true, true⟩ 5 (construct ⟨true, true, true⟩ 5)
    Reachable.refl
  refine ⟨h.1, (h.2.2 7 ?_ ?_).2⟩
  · norm_num [construct, updateParallax, ratAbs, hasParallaxElements, applyTransforms]
  · norm_num [construct, updateParallax, ratAbs, hasParallaxElements, applyTransforms]

/-! ### C6: teardown and the utils.js bind slip -/

/-- C6: the utils.js module version of destroy passes a freshly created
`.bind` result to removeEventListener, so it never matches the listener that
`init` registered: at the concrete failing input (a page with only the mid
layer, constructed at position 0, then destroyed) the listener is still
registered, a subsequent scroll notification still sets the pending flag,
and the next frame still executes the update routine — contradicting the
teardown contract. The entry-point version of destroy, at the same input,
does remove the listener, and scroll notifications after it are no-ops. -/
theorem destroyU_does_not_cancel :
    (destroyU (constructU ⟨false, true, false⟩ 0)).scrollListener = some 0 ∧
    (scrollEventU (destroyU (constructU ⟨false, true, false⟩ 0))).ctrl.ticking = true ∧
    (runFrame 5 (scrollEventU (destroyU (constructU ⟨false, true, false⟩ 0)))).execCount
      = (destroyU (constructU ⟨false, true, false⟩ 0)).execCount + 1 ∧
    (destroy (construct ⟨false, true, false⟩ 0)).scrollListener = none ∧
    scrollEvent (destroy (construct ⟨false, true, false⟩ 0))
      = destroy (construct ⟨false, true, false⟩ 0) := by
  refine ⟨?_, ?_, ?_, ?_, ?_⟩ <;>
    norm_num [constructU, destroyU, scrollEventU, handleScrollU, construct, destroy,
      scrollEvent, handleScroll, updateParallax, runFrame, runQueued, ratAbs,
      hasParallaxElements, applyTransforms]

/-! ### C9: the initApp gate for the parallax controller -/

/-- C9: initApp constructs the parallax controller (and hence makes the
subscription and any writes) exactly when the user does not prefer reduced
motion and the window inner width exceeds 768; on a reduced-motion or narrow
context no parallax state is created at all. -/
theorem initApp_parallax_gate (e : Env) :
    initAppParallax e =
      (if e.reducedMotion = false ∧ 768 < e.innerWidth
       then some (construct e.layers e.pageYOffset) else none) ∧
    ((initAppParallax e).isSome = true ↔
      (e.reducedMotion = false ∧ 768 < e.innerWidth)) := by
  have key : initAppParallax e =
      (if e.reducedMotion = false ∧ 768 < e.innerWidth
       then some (construct e.layers e.pageYOffset) else none) := by
    unfold initAppParallax prefersReducedMotion isMobile
    by_cases h1 : e.reducedMotion = true <;> by_cases h2 : e.innerWidth ≤ 768
    · simp [h1, h2]
    · simp [h1, h2]
    · simp [h1, h2, not_lt.mpr h2]
    · simp [h1, h2, not_le.mp h2]
  refine ⟨key, ?_⟩
  rw [key]
  by_cases h : e.reducedMotion = false ∧ 768 < e.innerWidth <;> simp [h]
